import Mathlib

/-!
# HarmonyViz — audio-graph lifecycle manager: shallow embedding

This file embeds the audio visualizer component of the repository and
proves the testable properties of its specification against that
embedding.  The repository contains four successive revisions of the
same React component; the embedding covers the revisions the claims
cite:

* `RevB` — the upload-file revision (source file `part_000`): mic via
  `getUserMedia` + `MediaStreamAudioSourceNode`, file playback via
  `decodeAudioData` + `AudioBufferSourceNode`; a fresh `AudioContext`
  and analyser per activation.
* `RevC` — the first component in `temp.tsx` (lines 1-401): one shared
  `AudioContext`, analyser and hidden `audio` element created on mount,
  a `busy` flag, preset tracks played through a single
  `MediaElementAudioSourceNode`.

Each React ref / state hook becomes a field of an explicit state
structure; each handler becomes a state-transition function.  Async
handlers are modelled as atomic run-to-completion functions whose
external outcomes (`getUserMedia` success, playback success, the thrown
error's `message` property) are parameters.  The externally visible
actions a handler performs (stopping hardware tracks, starting
playback, …) are mirrored by companion `…Events` functions that list
those actions in the order the source performs them.

The canvas geometry (`fitCanvas`) and the per-frame paint step
(`draw`'s sampling and bar geometry) are identical across all
revisions and are modelled once, over `ℚ`, at the end of the
definitions section.
-/

/-- The `Mode` union type of the component: `"idle" | "mic" | "file"`. -/
inductive Mode where
  | idle : Mode
  | mic : Mode
  | file : Mode
deriving DecidableEq, Repr

/-- Externally visible actions performed by the handlers, in source
order: acquiring the capture stream, stopping the hardware capture
tracks, closing the audio context, decoding file data, and starting
playback (`src.start(0)` / `el.play()`). -/
inductive Event where
  | getUserMedia : Event
  | stopTracks : Event
  | ctxClose : Event
  | decode : Event
  | play : Event
deriving DecidableEq, Repr

namespace RevB

/-- State of the `part_000` revision: one field per React ref / state
hook.  `analyser` holds `some fftSize` when `analyserRef.current` is
set; `dataArray` holds `some (allocationId, length)` when
`dataArrayRef.current` is set, where `allocationId` comes from the
monotone `allocCounter` so that distinct allocations are
distinguishable.  `scheduledFrames` counts pending
`requestAnimationFrame` callbacks (the `rafIdRef` only remembers the
most recent id); `fileOnended` says the node in `fileSourceRef` has an
`onended` handler attached, and `pendingOnended` records that an
attached handler has been triggered (a buffer source fires `ended`
both on natural completion and on `stop()`).  The canvas element and
its 2d context always exist in the component, so `draw`'s null checks
on them are modelled as passing. -/
structure StateB where
  audioCtx : Bool
  analyser : Option Nat
  micSource : Bool
  micStream : Bool
  fileSource : Bool
  fileOnended : Bool
  pendingOnended : Bool
  rafId : Bool
  scheduledFrames : Nat
  dataArray : Option (Nat × Nat)
  allocCounter : Nat
  mode : Mode
  isMicOn : Bool
  isFilePlaying : Bool
  fileName : Option String
  error : Option String
  canvasBlanked : Bool
deriving DecidableEq, Repr

/-- `analyser.frequencyBinCount` is half the configured `fftSize`. -/
def binCount (fftSize : Nat) : Nat := fftSize / 2

/-- The initial state right after mount: all refs `null`, mode
`"idle"`, flags `false`, the mount effect has fitted and blanked the
canvas. -/
def initB : StateB where
  audioCtx := false
  analyser := none
  micSource := false
  micStream := false
  fileSource := false
  fileOnended := false
  pendingOnended := false
  rafId := false
  scheduledFrames := 0
  dataArray := none
  allocCounter := 0
  mode := Mode.idle
  isMicOn := false
  isFilePlaying := false
  fileName := none
  error := none
  canvasBlanked := true

/-- `stopRenderLoop`: cancels the pending frame if `rafIdRef` is set. -/
def stopRenderLoop (s : StateB) : StateB :=
  if s.rafId then
    { s with rafId := false, scheduledFrames := s.scheduledFrames - 1 }
  else s

/-- `clearCanvas`: fills the whole canvas with black. -/
def clearCanvas (s : StateB) : StateB :=
  { s with canvasBlanked := true }

/-- `teardownContext`: suspend/close the context (failures swallowed),
then null the context, analyser and data-array refs. -/
def teardownContext (s : StateB) : StateB :=
  { s with audioCtx := false, analyser := none, dataArray := none }

/-- The state effect of one `draw()` call: when the canvas, analyser
and data array are all present it schedules the next frame
(`rafIdRef.current := requestAnimationFrame(draw)`) and paints, else it
returns without doing anything.  The per-frame geometry is modelled
separately by `drawStep` below. -/
def draw (s : StateB) : StateB :=
  if s.analyser.isSome && s.dataArray.isSome then
    { s with rafId := true, scheduledFrames := s.scheduledFrames + 1,
             canvasBlanked := false }
  else s

/-- `stopMic` (`part_000` lines 164-180): stop the loop, disconnect and
null the mic source, stop the hardware tracks and null the stream,
tear down the context, blank the canvas, drop the mic flag and fold
the mode `"mic" → "idle"`. -/
def stopMic (s : StateB) : StateB :=
  let s1 := stopRenderLoop s
  let s2 := { s1 with micSource := false, micStream := false }
  let s3 := teardownContext s2
  let s4 := clearCanvas s3
  { s4 with isMicOn := false,
            mode := if s4.mode = Mode.mic then Mode.idle else s4.mode }

/-- Visible actions of `stopMic`, in order: the hardware tracks are
stopped when a stream is held, then the context is closed when one
exists. -/
def stopMicEvents (s : StateB) : List Event :=
  (if s.micStream then [Event.stopTracks] else []) ++
    (if s.audioCtx then [Event.ctxClose] else [])

/-- `stopFilePlayback` (`part_000` lines 242-263): stop the loop; if a
file source node is referenced, call `stop(0)` and `disconnect()` on it
and null the ref — the node's `onended` handler is *not* detached, so
`stop(0)` triggers it (`pendingOnended`); then tear down the context,
blank the canvas, drop the playing flag, fold `"file" → "idle"` and
clear the file name. -/
def stopFilePlayback (s : StateB) : StateB :=
  let s1 := stopRenderLoop s
  let s2 :=
    if s1.fileSource then
      { s1 with fileSource := false, fileOnended := false,
                pendingOnended := s1.pendingOnended || s1.fileOnended }
    else s1
  let s3 := teardownContext s2
  let s4 := clearCanvas s3
  { s4 with isFilePlaying := false,
            mode := if s4.mode = Mode.file then Mode.idle else s4.mode,
            fileName := none }

/-- Visible actions of `stopFilePlayback`: closing the context when one
exists. -/
def stopFilePlaybackEvents (s : StateB) : List Event :=
  if s.audioCtx then [Event.ctxClose] else []

/-- `startMic` (`part_000` lines 120-162), success path: first `await
stopFilePlayback()`, then clear the error, acquire the capture stream,
build a fresh context, an analyser with `fftSize = 256`, a stream
source connected to the analyser, allocate a `Uint8Array` of
`frequencyBinCount` bytes, fit and blank the canvas, start the render
loop, and set mode/flags for mic. -/
def startMicOk (s : StateB) : StateB :=
  let s1 := stopFilePlayback s
  let s2 := { s1 with error := none, micStream := true }
  let s3 := { s2 with audioCtx := true, analyser := some 256 }
  let s4 := { s3 with micSource := true }
  let s5 := { s4 with dataArray := some (s4.allocCounter, binCount 256),
                      allocCounter := s4.allocCounter + 1 }
  let s6 := draw (clearCanvas s5)
  { s6 with mode := Mode.mic, isMicOn := true, isFilePlaying := false,
            fileName := none }

/-- `startMic`, failure path: `getUserMedia` rejects with an exception
whose `message` property is `msg` (`none` when absent).  After the
initial `await stopFilePlayback()` the catch block sets
`error := e?.message ?? "Microphone permission denied or unavailable."`,
blanks the canvas, and leaves mode `"idle"` with the mic flag off. -/
def startMicFail (msg : Option String) (s : StateB) : StateB :=
  let s1 := stopFilePlayback s
  let s2 := { s1 with error := none }
  let s3 := { s2 with
    error := some (msg.getD "Microphone permission denied or unavailable.") }
  let s4 := clearCanvas s3
  { s4 with mode := Mode.idle, isMicOn := false }

/-- Visible actions of the failing `startMic` run: those of the inner
`stopFilePlayback`, then the single capture-stream request. -/
def startMicFailEvents (s : StateB) : List Event :=
  stopFilePlaybackEvents s ++ [Event.getUserMedia]

/-- `startFilePlayback` (`part_000` lines 183-240), success path: first
`await stopMic()`, then read the file, build a fresh context and
analyser (`fftSize = 256`), decode, create a buffer source wired
source→analyser→destination, allocate the data array, fit and blank
the canvas, start the render loop, call `src.start(0)`, set mode/flags
for file, and attach the `onended` handler. -/
def startFilePlaybackOk (name : String) (s : StateB) : StateB :=
  let s1 := stopMic s
  let s2 := { s1 with error := none }
  let s3 := { s2 with audioCtx := true, analyser := some 256 }
  let s4 := { s3 with fileSource := true }
  let s5 := { s4 with dataArray := some (s4.allocCounter, binCount 256),
                      allocCounter := s4.allocCounter + 1 }
  let s6 := draw (clearCanvas s5)
  { s6 with mode := Mode.file, isFilePlaying := true,
            fileName := some name, fileOnended := true }

/-- Visible actions of the successful `startFilePlayback` run: those of
the inner `stopMic` (hardware tracks stopped, old context closed),
then the decode, then `src.start(0)`. -/
def startFilePlaybackOkEvents (s : StateB) : List Event :=
  stopMicEvents s ++ [Event.decode, Event.play]

/-- `startFilePlayback`, failure path, modelled at the representative
failure point (`decodeAudioData` rejects, after the fresh context and
analyser were created): the catch block sets the error, blanks the
canvas, drops the playing flag, sets mode `"idle"` and nulls the file
source ref. -/
def startFilePlaybackFail (msg : Option String) (s : StateB) : StateB :=
  let s1 := stopMic s
  let s2 := { s1 with error := none, audioCtx := true, analyser := some 256 }
  let s3 := { s2 with
    error := some (msg.getD "Failed to play the selected audio file.") }
  let s4 := clearCanvas s3
  { s4 with isFilePlaying := false, mode := Mode.idle, fileSource := false }

/-- The `src.onended` handler firing on natural end of track while a
source is referenced and the handler attached: stop the loop, tear
down the context, null the source ref, drop the playing flag, fold
`"file" → "idle"`, blank the canvas.  The handler is consumed by the
node ending. -/
def fileEnded (s : StateB) : StateB :=
  if s.fileSource && s.fileOnended then
    let s1 := stopRenderLoop s
    let s2 := teardownContext s1
    let s3 := { s2 with fileSource := false, fileOnended := false,
                        isFilePlaying := false }
    let s4 := { s3 with
      mode := if s3.mode = Mode.file then Mode.idle else s3.mode }
    clearCanvas s4
  else s

/-- The unmount cleanup (`part_000` lines 265-273): `stopRenderLoop();
stopFilePlayback(); stopMic();`. -/
def teardownAll (s : StateB) : StateB :=
  stopMic (stopFilePlayback (stopRenderLoop s))

/-- The operations a run of the component can perform, with their
external outcomes folded in. -/
inductive OpB where
  | startMicOk : OpB
  | startMicFail (msg : Option String) : OpB
  | startFileOk (name : String) : OpB
  | startFileFail (msg : Option String) : OpB
  | stopMic : OpB
  | stopFile : OpB
  | fileEnded : OpB
  | teardownAll : OpB

/-- One atomic (run-to-completion) handler invocation. -/
def stepB (s : StateB) : OpB → StateB
  | OpB.startMicOk => startMicOk s
  | OpB.startMicFail msg => startMicFail msg s
  | OpB.startFileOk name => startFilePlaybackOk name s
  | OpB.startFileFail msg => startFilePlaybackFail msg s
  | OpB.stopMic => stopMic s
  | OpB.stopFile => stopFilePlayback s
  | OpB.fileEnded => fileEnded s
  | OpB.teardownAll => teardownAll s

/-- Run a sequence of handler invocations from a state. -/
def runB (s : StateB) : List OpB → StateB
  | [] => s
  | op :: ops => runB (stepB s op) ops

end RevB

namespace RevC

/-- State of the first component in `temp.tsx` (lines 1-401): one
shared `AudioContext`, analyser, hidden `audio` element and
`MediaElementAudioSourceNode`, all created once by the mount effect.
Connection state is separate from the refs because this revision keeps
the refs and only connects/disconnects: `micConnected`,
`fileConnected` and `analyserToDest` record which graph edges exist.
`elPlaying` mirrors whether the `audio` element is playing, `elSrc`
its current source URL, `elOnended` whether its `onended` handler is
attached. -/
structure StateC where
  audioCtx : Bool
  analyser : Bool
  audioEl : Bool
  mediaElSource : Bool
  micStream : Bool
  micSource : Bool
  micConnected : Bool
  fileConnected : Bool
  analyserToDest : Bool
  elPlaying : Bool
  elOnended : Bool
  elSrc : Option String
  dataArray : Bool
  rafId : Bool
  scheduledFrames : Nat
  mode : Mode
  isMicOn : Bool
  isFilePlaying : Bool
  currentTrackId : Option String
  busy : Bool
  error : Option String
  canvasBlanked : Bool
deriving DecidableEq, Repr

/-- State right after the mount effect ran (context, analyser, element
and media-element source created, visualization buffer allocated),
before the effect's trailing `startMic()` call. -/
def initC : StateC where
  audioCtx := true
  analyser := true
  audioEl := true
  mediaElSource := true
  micStream := false
  micSource := false
  micConnected := false
  fileConnected := false
  analyserToDest := false
  elPlaying := false
  elOnended := false
  elSrc := none
  dataArray := true
  rafId := false
  scheduledFrames := 0
  mode := Mode.idle
  isMicOn := false
  isFilePlaying := false
  currentTrackId := none
  busy := false
  error := none
  canvasBlanked := true

/-- `stopRenderLoop`, identical to the other revisions. -/
def stopRenderLoop (s : StateC) : StateC :=
  if s.rafId then
    { s with rafId := false, scheduledFrames := s.scheduledFrames - 1 }
  else s

/-- `clearCanvas`, identical to the other revisions. -/
def clearCanvas (s : StateC) : StateC :=
  { s with canvasBlanked := true }

/-- `disconnectAll` (`temp.tsx` lines 165-169): disconnect the mic
source, the media-element source and the analyser (failures
swallowed). -/
def disconnectAll (s : StateC) : StateC :=
  { s with micConnected := false, fileConnected := false,
           analyserToDest := false }

/-- `connectForMic` (lines 171-175): when the context, analyser and
mic source all exist, wire mic→analyser→destination. -/
def connectForMic (s : StateC) : StateC :=
  if s.audioCtx && s.analyser && s.micSource then
    { s with micConnected := true, analyserToDest := true }
  else s

/-- `connectForFile` (lines 177-181): when the context, analyser and
media-element source all exist, wire element→analyser→destination. -/
def connectForFile (s : StateC) : StateC :=
  if s.audioCtx && s.analyser && s.mediaElSource then
    { s with fileConnected := true, analyserToDest := true }
  else s

/-- The state effect of one `draw()` call, as in the other
revisions. -/
def draw (s : StateC) : StateC :=
  if s.analyser && s.dataArray then
    { s with rafId := true, scheduledFrames := s.scheduledFrames + 1,
             canvasBlanked := false }
  else s

/-- `stopPresetPlayback` (`temp.tsx` lines 185-200): if no `audio`
element exists, return; else stop the loop, detach `onended`, pause
the element and rewind it, disconnect everything, blank the canvas,
drop the playing flag and track id, and fold `"file" → "idle"`. -/
def stopPresetPlayback (s : StateC) : StateC :=
  if s.audioEl then
    let s1 := stopRenderLoop s
    let s2 := { s1 with elOnended := false, elPlaying := false }
    let s3 := disconnectAll s2
    let s4 := clearCanvas s3
    { s4 with isFilePlaying := false, currentTrackId := none,
              mode := if s4.mode = Mode.file then Mode.idle else s4.mode }
  else s

/-- `startMic` (`temp.tsx` lines 202-233): if the context is gone,
return.  Set `busy`, `await stopPresetPlayback()`, then either the
capture stream is acquired (`gumOk`) — create the stream source,
`disconnectAll(); connectForMic()`, fit/blank the canvas, start the
render loop and set mode/flags for mic — or `getUserMedia` rejects
with message `msg` and the catch block records the error, blanks the
canvas and leaves `"idle"`.  Either way the `finally` clears `busy`.
Note the function sets the busy flag but never checks it. -/
def startMic (gumOk : Bool) (msg : Option String) (s : StateC) : StateC :=
  if s.audioCtx then
    let s1 := { s with busy := true }
    let s2 := stopPresetPlayback s1
    if gumOk then
      let s3 := { s2 with error := none, micStream := true, micSource := true }
      let s4 := connectForMic (disconnectAll s3)
      let s5 := draw (clearCanvas s4)
      { s5 with mode := Mode.mic, isMicOn := true, isFilePlaying := false,
                currentTrackId := none, busy := false }
    else
      let s3 := { s2 with
        error := some (msg.getD "Microphone permission denied or unavailable.") }
      let s4 := clearCanvas s3
      { s4 with mode := Mode.idle, isMicOn := false, busy := false }
  else s

/-- `stopMic` (`temp.tsx` lines 235-247): if the context is gone,
return; else stop the loop, disconnect and null the mic source, stop
the hardware tracks and null the stream, blank the canvas, drop the
mic flag and fold `"mic" → "idle"`.  The shared context stays up. -/
def stopMic (s : StateC) : StateC :=
  if s.audioCtx then
    let s1 := stopRenderLoop s
    let s2 := { s1 with micConnected := false, micSource := false,
                        micStream := false }
    let s3 := clearCanvas s2
    { s3 with isMicOn := false,
              mode := if s3.mode = Mode.mic then Mode.idle else s3.mode }
  else s

/-- `startPreset` (`temp.tsx` lines 250-299): if the context or
element is gone, return; **if `busy`, return** — this is the
reentrancy guard; else set `busy`, `stopMic()`, detach `onended` and
pause any current track, `disconnectAll(); connectForFile()`, point
the element at the track URL, fit/blank the canvas, start the render
loop and `await el.play()`.  On success set mode/flags for file and
attach the `onended` handler; on failure record the error, reset the
flags to idle, blank and disconnect.  The `finally` clears `busy`. -/
def startPreset (playOk : Bool) (msg : Option String)
    (trackId trackUrl : String) (s : StateC) : StateC :=
  if s.audioCtx && s.audioEl then
    if s.busy then s
    else
      let s1 := { s with busy := true }
      let s2 := stopMic s1
      let s3 := { s2 with elOnended := false, elPlaying := false }
      let s4 := connectForFile (disconnectAll s3)
      let s5 := { s4 with elSrc := some trackUrl }
      let s6 := draw (clearCanvas s5)
      if playOk then
        { s6 with elPlaying := true, mode := Mode.file, isFilePlaying := true,
                  currentTrackId := some trackId, elOnended := true,
                  busy := false }
      else
        let s7 := disconnectAll (clearCanvas { s6 with
          error := some (msg.getD "Failed to play track."),
          isFilePlaying := false, currentTrackId := none,
          mode := Mode.idle })
        { s7 with busy := false }
  else s

end RevC

/-! ## Canvas geometry (`fitCanvas`, identical in all revisions) -/

/-- The backing pixel buffer of the canvas element. -/
structure Canvas where
  width : Nat
  height : Nat
deriving DecidableEq, Repr

/-- `fitCanvas`: if no canvas element, return; read the layout box
(`rectW`, `rectH`) and `window.devicePixelRatio || 1` (a falsy 0 is
replaced by 1), and set
`canvas.width = Math.max(1, Math.floor(rect.width * dpr))` and
likewise for the height.  Real-valued sizes are modelled over `ℚ`;
`Math.floor` rounds toward negative infinity, as `Int.floor` does. -/
def fitCanvas (rectW rectH dpr : ℚ) (c : Option Canvas) : Option Canvas :=
  match c with
  | none => none
  | some c =>
    let d := if dpr = 0 then 1 else dpr
    some { c with width := (max 1 (Int.floor (rectW * d))).toNat,
                  height := (max 1 (Int.floor (rectH * d))).toNat }

/-- Modelled from the spec's words, for comparison with `fitCanvas`:
"sets the backing pixel buffer dimensions to
`ceil(layoutSize * scaleFactor)`, minimum 1×1". -/
def fitCanvasSpec (rectW rectH dpr : ℚ) (c : Option Canvas) : Option Canvas :=
  match c with
  | none => none
  | some c =>
    let d := if dpr = 0 then 1 else dpr
    some { c with width := (max 1 (Int.ceil (rectW * d))).toNat,
                  height := (max 1 (Int.ceil (rectH * d))).toNat }

/-! ## The per-frame render step (`draw`, identical in all revisions) -/

/-- One painted bar: the `fillRect(x, H - barH, barW, barH)` call plus
the hue of its `hsl(hue,100%,50%)` fill style. -/
structure Bar where
  x : ℚ
  y : ℚ
  w : ℚ
  h : ℚ
  hue : ℚ
deriving DecidableEq, Repr

/-- The actions of one `draw()` step, in order: reschedule via
`requestAnimationFrame`, sample `getByteFrequencyData`, paint the
whole-surface `rgba(0,0,0,0.15)` fade overlay, then one bar per
frequency bin. -/
inductive DEvent where
  | reschedule : DEvent
  | sample : DEvent
  | overlay (alpha w h : ℚ) : DEvent
  | bar (b : Bar) : DEvent
deriving DecidableEq, Repr

/-- The bar-drawing loop of `draw`: `barW = (W / n) * 2.2`; for each
bin value `v` at index `i`, `barH = (v / 255) * (H * 0.9)`,
`hue = (i / n) * 300`, `fillRect(x, H - barH, barW, barH)`, then
`x += barW + 1`. -/
def barsFrom (W H nQ : ℚ) (x : ℚ) (i : Nat) : List Nat → List Bar
  | [] => []
  | v :: rest =>
    let barW := W / nQ * (11/5)
    let barH := ((v : ℚ) / 255) * (H * (9/10))
    { x := x, y := H - barH, w := barW, h := barH,
      hue := ((i : ℚ) / nQ) * 300 } ::
      barsFrom W H nQ (x + barW + 1) (i + 1) rest

/-- One full `draw()` step: if the canvas (with its 2d context), the
analyser and the data array are present, reschedule first, then
sample, then paint the `0.15`-alpha overlay over the `W × H` surface,
then the bars (`n = dataArray.length`, starting at `x = 0`, `i = 0`);
otherwise do nothing. -/
def drawStep (W H : ℚ) (canvas analyser : Bool) (data : Option (List Nat)) :
    List DEvent :=
  match canvas, analyser, data with
  | true, true, some d =>
    DEvent.reschedule :: DEvent.sample ::
      DEvent.overlay (3/20) W H ::
        (barsFrom W H (d.length : ℚ) 0 0 d).map DEvent.bar
  | _, _, _ => []

/-! ## Auxiliary definitions for the theorems -/

/-- The mutual-exclusion / single-loop invariant of the `part_000`
revision: the mic and file source refs are never both set, and the
number of pending frame callbacks matches the render-loop handle
(one when `rafIdRef` is set, zero otherwise). -/
def RevB.InvB (s : RevB.StateB) : Prop :=
  (s.micSource = false ∨ s.fileSource = false) ∧
    s.scheduledFrames = (if s.rafId then 1 else 0)

/-- A `RevC` state in which a prior start sequence is mid-flight
(its `busy` flag is up, everything else as freshly mounted). -/
def RevC.busyC : RevC.StateC := { RevC.initC with busy := true }


/-! ## Theorems -/

/-- C8 counterexample: the source uses `Math.floor`, not `ceil`.  At a
layout width of 2.5 CSS pixels and scale factor 1 the code sets the
backing width to 2, while the spec's `ceil` formula gives 3. -/
theorem fitCanvas_not_ceil_cex :
    fitCanvas (5/2) 1 1 (some ⟨0, 0⟩) = some ⟨2, 1⟩ ∧
    fitCanvasSpec (5/2) 1 1 (some ⟨0, 0⟩) = some ⟨3, 1⟩ ∧
    (2 : Nat) < 3 := by
  refine ⟨?_, ?_, by norm_num⟩
  · simp only [fitCanvas]
    norm_num [Int.floor_eq_iff]
    rfl
  · simp only [fitCanvasSpec]
    have h : (⌈(5/2 : ℚ)⌉ : ℤ) = 3 := by norm_num [Int.ceil_eq_iff]
    norm_num [h]
    rfl

/-- C8 (amended): `fitCanvas` sets the backing pixel buffer dimensions
to `floor(layoutSize * scaleFactor)` (with a falsy scale factor
replaced by 1), with a minimum of 1×1; it is idempotent for a fixed
layout size and scale factor, and is a safe no-op when there is no
canvas (and it touches no pipeline state). -/
theorem fitCanvas_floor_min_idempotent (rectW rectH dpr : ℚ) (c : Canvas) :
    fitCanvas rectW rectH dpr (some c) =
      some { width := (max 1 (Int.floor (rectW * (if dpr = 0 then 1 else dpr)))).toNat,
             height := (max 1 (Int.floor (rectH * (if dpr = 0 then 1 else dpr)))).toNat } ∧
    1 ≤ ((fitCanvas rectW rectH dpr (some c)).getD ⟨0, 0⟩).width ∧
    1 ≤ ((fitCanvas rectW rectH dpr (some c)).getD ⟨0, 0⟩).height ∧
    fitCanvas rectW rectH dpr (fitCanvas rectW rectH dpr (some c)) =
      fitCanvas rectW rectH dpr (some c) ∧
    fitCanvas rectW rectH dpr none = none := by
  have hb : ∀ z : ℤ, 1 ≤ (max 1 z).toNat := fun z => by
    exact Int.toNat_le_toNat (le_max_left 1 z)
  refine ⟨rfl, ?_, ?_, ?_, rfl⟩
  · simp only [fitCanvas, Option.getD_some]
    exact hb _
  · simp only [fitCanvas, Option.getD_some]
    exact hb _
  · simp [fitCanvas]

/-- C2 counterexample: not every start/stop sequence is busy-guarded.
From a freshly mounted state whose `busy` flag is up (a prior sequence
is mid-flight), a `startMic` invocation is *not* ignored or deferred:
it runs its whole sequence and turns the mic on. -/
theorem startMic_ignores_busy_cex :
    RevC.busyC.busy = true ∧
    RevC.busyC.isMicOn = false ∧
    (RevC.startMic true none RevC.busyC).isMicOn = true ∧
    (RevC.startMic true none RevC.busyC).mode = Mode.mic := by
  refine ⟨rfl, rfl, ?_, ?_⟩ <;> rfl

/-- C2 (amended): only `startPreset` is serialized by the `busy` flag —
a `startPreset` invocation observed while the flag is up is ignored
(the state is left untouched); `startMic` raises the flag but never
checks it, and the stop operations are unguarded, so those invocations
execute even while a prior sequence is mid-flight. -/
theorem startPreset_busy_guard (s : RevC.StateC) (playOk : Bool)
    (msg : Option String) (trackId trackUrl : String)
    (h : s.busy = true) :
    RevC.startPreset playOk msg trackId trackUrl s = s := by
  unfold RevC.startPreset
  split
  · simp [h]
  · rfl

/-- Witness for `startPreset_busy_guard` at the concrete mid-flight
state `RevC.busyC`. -/
theorem startPreset_busy_guard_witness :
    RevC.startPreset true none "t1" "/audio/cascade-breathe.mp3" RevC.busyC =
      RevC.busyC :=
  startPreset_busy_guard RevC.busyC true none "t1"
    "/audio/cascade-breathe.mp3" rfl

/-- The mode written by `stopFilePlayback` in `part_000`: the functional
update `setMode(m ⇒ m === "file" ? "idle" : m)`. -/
theorem RevB.stopFilePlayback_mode (s : RevB.StateB) :
    (RevB.stopFilePlayback s).mode =
      if s.mode = Mode.file then Mode.idle else s.mode := by
  simp only [RevB.stopFilePlayback, RevB.stopRenderLoop, RevB.teardownContext,
    RevB.clearCanvas]
  split_ifs <;> simp_all

/-- The mode written by `stopMic` in `temp.tsx` (first component):
unchanged behind the null-context early return, else
`setMode(m ⇒ m === "mic" ? "idle" : m)`. -/
theorem RevC.stopMic_mode (s : RevC.StateC) :
    (RevC.stopMic s).mode =
      if s.audioCtx then
        (if s.mode = Mode.mic then Mode.idle else s.mode)
      else s.mode := by
  simp only [RevC.stopMic, RevC.stopRenderLoop, RevC.clearCanvas]
  split_ifs <;> simp_all

/-- The mode written by `stopPresetPlayback` in `temp.tsx` (first
component): unchanged behind the null-element early return, else
`setMode(m ⇒ m === "file" ? "idle" : m)`. -/
theorem RevC.stopPresetPlayback_mode (s : RevC.StateC) :
    (RevC.stopPresetPlayback s).mode =
      if s.audioEl then
        (if s.mode = Mode.file then Mode.idle else s.mode)
      else s.mode := by
  simp only [RevC.stopPresetPlayback, RevC.stopRenderLoop, RevC.disconnectAll,
    RevC.clearCanvas]
  split_ifs <;> simp_all

/-- C10: `stopMic` sets the mode to idle only when the current mode is
mic, and `stopFilePlayback`/`stopPresetPlayback` set it to idle only
when the current mode is file; invoked while any other mode is active,
each of these leaves the mode field unchanged. -/
theorem stop_ops_fold_only_their_mode (sB : RevB.StateB) (sC : RevC.StateC) :
    ((RevB.stopFilePlayback sB).mode = Mode.idle ∨
      (RevB.stopFilePlayback sB).mode = sB.mode) ∧
    (sB.mode ≠ Mode.file → (RevB.stopFilePlayback sB).mode = sB.mode) ∧
    ((RevC.stopMic sC).mode = Mode.idle ∨ (RevC.stopMic sC).mode = sC.mode) ∧
    (sC.mode ≠ Mode.mic → (RevC.stopMic sC).mode = sC.mode) ∧
    ((RevC.stopPresetPlayback sC).mode = Mode.idle ∨
      (RevC.stopPresetPlayback sC).mode = sC.mode) ∧
    (sC.mode ≠ Mode.file → (RevC.stopPresetPlayback sC).mode = sC.mode) := by
  rw [RevB.stopFilePlayback_mode, RevC.stopMic_mode,
    RevC.stopPresetPlayback_mode]
  refine ⟨?_, ?_, ?_, ?_, ?_, ?_⟩ <;> split_ifs <;> simp_all

/-- Witness for `stop_ops_fold_only_their_mode`: from a mic-mode state
`stopFilePlayback` leaves the mode untouched, and from a file-mode
state `stopMic` leaves the mode untouched, and from a mic-mode state
`stopPresetPlayback` leaves the mode untouched. -/
theorem stop_ops_fold_only_their_mode_witness :
    (RevB.stopFilePlayback { RevB.initB with mode := Mode.mic }).mode =
      ({ RevB.initB with mode := Mode.mic } : RevB.StateB).mode ∧
    (RevC.stopMic { RevC.initC with mode := Mode.file }).mode =
      ({ RevC.initC with mode := Mode.file } : RevC.StateC).mode ∧
    (RevC.stopPresetPlayback { RevC.initC with mode := Mode.mic }).mode =
      ({ RevC.initC with mode := Mode.mic } : RevC.StateC).mode :=
  ⟨(stop_ops_fold_only_their_mode { RevB.initB with mode := Mode.mic }
      RevC.initC).2.1 (by simp),
   (stop_ops_fold_only_their_mode RevB.initB
      { RevC.initC with mode := Mode.file }).2.2.2.1 (by simp),
   (stop_ops_fold_only_their_mode RevB.initB
      { RevC.initC with mode := Mode.mic }).2.2.2.2.2 (by simp)⟩

/-- C3: switching directly from the mic-active state to file playback
stops the hardware capture tracks before playback begins — in the run
of `startFilePlayback` from any state holding a capture stream, the
track-stop action occurs strictly before the first (and only) `play`
action. -/
theorem tracks_stopped_before_play (s : RevB.StateB)
    (_hmode : s.mode = Mode.mic) (hstream : s.micStream = true) :
    ∃ pre post,
      RevB.startFilePlaybackOkEvents s = pre ++ Event.play :: post ∧
      Event.stopTracks ∈ pre ∧ Event.play ∉ pre := by
  refine ⟨RevB.stopMicEvents s ++ [Event.decode], [], ?_, ?_, ?_⟩
  · simp [RevB.startFilePlaybackOkEvents]
  · simp [RevB.stopMicEvents, hstream]
  · simp only [RevB.stopMicEvents, hstream]
    cases h : s.audioCtx <;> simp [h]

/-- Witness for `tracks_stopped_before_play` at the mic-active state
reached by `startMic` from the mounted state. -/
theorem tracks_stopped_before_play_witness :
    ∃ pre post,
      RevB.startFilePlaybackOkEvents (RevB.startMicOk RevB.initB) =
        pre ++ Event.play :: post ∧
      Event.stopTracks ∈ pre ∧ Event.play ∉ pre :=
  tracks_stopped_before_play (RevB.startMicOk RevB.initB) (by decide)
    (by decide)

/-- C4 (code bug, `part_000`): `stopFilePlayback` calls
`fileSource.stop(0)` *without* detaching the node's `onended` handler
first, so the still-attached handler is triggered by the manual stop —
evaluated here at the file-active state reached from the mounted
state.  (The later revision's `stopPresetPlayback` in `temp.tsx` does
`el.onended = null` before pausing, which is the spec's stated
intent.) -/
theorem stopFilePlayback_fires_onended_bug :
    (RevB.startFilePlaybackOk "track.mp3" RevB.initB).fileOnended = true ∧
    (RevB.startFilePlaybackOk "track.mp3" RevB.initB).mode = Mode.file ∧
    (RevB.stopFilePlayback
      (RevB.startFilePlaybackOk "track.mp3" RevB.initB)).pendingOnended =
      true ∧
    (RevB.stopFilePlayback
      (RevB.startFilePlaybackOk "track.mp3" RevB.initB)).mode = Mode.idle ∧
    (RevC.stopPresetPlayback
      { RevC.initC with
          elOnended := true
          elPlaying := true
          mode := Mode.file }).elOnended = false ∧
    (RevB.fileEnded (RevB.startFilePlaybackOk "track.mp3" RevB.initB)).mode =
      Mode.idle ∧
    RevB.fileEnded
        (RevB.fileEnded (RevB.startFilePlaybackOk "track.mp3" RevB.initB)) =
      RevB.fileEnded (RevB.startFilePlaybackOk "track.mp3" RevB.initB) := by
  refine ⟨rfl, rfl, rfl, rfl, rfl, rfl, ?_⟩
  decide

/-- C5 counterexample: after *any* stop operation not every pipeline
resource is unreferenced — `stopMic` invoked in the file-active state
(as `startFilePlayback` itself does when switching tracks) leaves the
file source node referenced. -/
theorem stopMic_leaves_fileSource_cex :
    (RevB.startFilePlaybackOk "track.mp3" RevB.initB).fileSource = true ∧
    (RevB.stopMic
      (RevB.startFilePlaybackOk "track.mp3" RevB.initB)).fileSource = true :=
  ⟨rfl, rfl⟩


/-- Normal form of `stopMic` (`part_000`): every field of the resulting
state, as a function of the input state. -/
theorem RevB.stopMic_spec (s : RevB.StateB) :
    RevB.stopMic s =
      { audioCtx := false
        analyser := none
        micSource := false
        micStream := false
        fileSource := s.fileSource
        fileOnended := s.fileOnended
        pendingOnended := s.pendingOnended
        rafId := false
        scheduledFrames := s.scheduledFrames - (if s.rafId then 1 else 0)
        dataArray := none
        allocCounter := s.allocCounter
        mode := if s.mode = Mode.mic then Mode.idle else s.mode
        isMicOn := false
        isFilePlaying := s.isFilePlaying
        fileName := s.fileName
        error := s.error
        canvasBlanked := true } := by
  cases s
  simp only [RevB.stopMic, RevB.stopRenderLoop, RevB.teardownContext,
    RevB.clearCanvas]
  split_ifs <;> simp_all

/-- Normal form of `stopFilePlayback` (`part_000`): every field of the
resulting state, as a function of the input state. -/
theorem RevB.stopFilePlayback_spec (s : RevB.StateB) :
    RevB.stopFilePlayback s =
      { audioCtx := false
        analyser := none
        micSource := s.micSource
        micStream := s.micStream
        fileSource := false
        fileOnended := if s.fileSource then false else s.fileOnended
        pendingOnended :=
          if s.fileSource then s.pendingOnended || s.fileOnended
          else s.pendingOnended
        rafId := false
        scheduledFrames := s.scheduledFrames - (if s.rafId then 1 else 0)
        dataArray := none
        allocCounter := s.allocCounter
        mode := if s.mode = Mode.file then Mode.idle else s.mode
        isMicOn := s.isMicOn
        isFilePlaying := false
        fileName := none
        error := s.error
        canvasBlanked := true } := by
  cases s
  simp only [RevB.stopFilePlayback, RevB.stopRenderLoop,
    RevB.teardownContext, RevB.clearCanvas]
  split_ifs <;> simp_all

/-- `stopMic` is idempotent. -/
theorem RevB.stopMic_idem (s : RevB.StateB) :
    RevB.stopMic (RevB.stopMic s) = RevB.stopMic s := by
  simp only [RevB.stopMic_spec]
  cases h : s.mode <;> simp [h]

/-- `stopFilePlayback` is idempotent. -/
theorem RevB.stopFilePlayback_idem (s : RevB.StateB) :
    RevB.stopFilePlayback (RevB.stopFilePlayback s) =
      RevB.stopFilePlayback s := by
  simp only [RevB.stopFilePlayback_spec]
  cases h : s.mode <;> simp [h]

/-- C5 (amended): each stop operation blanks the canvas and releases
the pipeline (context, analyser, frequency buffer) together with its
own source kind's references; the unmount teardown releases both
kinds; and each stop operation is idempotent — a second call from the
already-stopped state raises no error and changes nothing.  A stop of
one source kind does not release the other kind's references (see the
counterexample). -/
theorem stop_teardown_release_and_idempotent (s : RevB.StateB) :
    (RevB.stopMic s).micSource = false ∧
    (RevB.stopMic s).micStream = false ∧
    (RevB.stopMic s).audioCtx = false ∧
    (RevB.stopMic s).analyser = none ∧
    (RevB.stopMic s).dataArray = none ∧
    (RevB.stopMic s).canvasBlanked = true ∧
    (RevB.stopFilePlayback s).fileSource = false ∧
    (RevB.stopFilePlayback s).audioCtx = false ∧
    (RevB.stopFilePlayback s).analyser = none ∧
    (RevB.stopFilePlayback s).dataArray = none ∧
    (RevB.stopFilePlayback s).canvasBlanked = true ∧
    (RevB.teardownAll s).micSource = false ∧
    (RevB.teardownAll s).micStream = false ∧
    (RevB.teardownAll s).fileSource = false ∧
    (RevB.teardownAll s).audioCtx = false ∧
    (RevB.teardownAll s).analyser = none ∧
    (RevB.teardownAll s).dataArray = none ∧
    (RevB.teardownAll s).canvasBlanked = true ∧
    RevB.stopMic (RevB.stopMic s) = RevB.stopMic s ∧
    RevB.stopFilePlayback (RevB.stopFilePlayback s) =
      RevB.stopFilePlayback s := by
  refine ⟨?_, ?_, ?_, ?_, ?_, ?_, ?_, ?_, ?_, ?_, ?_, ?_, ?_, ?_, ?_, ?_,
    ?_, ?_, RevB.stopMic_idem s, RevB.stopFilePlayback_idem s⟩ <;>
    simp [RevB.teardownAll, RevB.stopMic_spec, RevB.stopFilePlayback_spec]

/-- C6 counterexample: the surfaced message is `e?.message ?? default`,
and a JavaScript `??` does not replace an *empty* message string — a
capture-acquisition failure whose exception carries the empty message
leaves an empty (length-0) error message surfaced. -/
theorem startMic_failure_empty_message_cex :
    (RevB.startMicFail (some "") RevB.initB).error = some "" ∧
    ("" : String).length = 0 ∧
    (RevB.startMicFail (some "") RevB.initB).mode = Mode.idle :=
  ⟨rfl, rfl, rfl⟩

/-- C6 (amended): every failing `startMic` run leaves mode idle, the
mic flag false and the canvas blanked, surfaces the exception's own
message when present and otherwise a non-empty default, and performs
exactly one capture-stream acquisition attempt (no automatic
retry). -/
theorem startMic_failure_recovers_to_idle (s : RevB.StateB)
    (msg : Option String) :
    (RevB.startMicFail msg s).mode = Mode.idle ∧
    (RevB.startMicFail msg s).isMicOn = false ∧
    (RevB.startMicFail msg s).canvasBlanked = true ∧
    (RevB.startMicFail msg s).error =
      some (msg.getD "Microphone permission denied or unavailable.") ∧
    0 < ("Microphone permission denied or unavailable." : String).length ∧
    (RevB.startMicFailEvents s).count Event.getUserMedia = 1 := by
  refine ⟨rfl, rfl, rfl, rfl, by decide, ?_⟩
  simp only [RevB.startMicFailEvents, RevB.stopFilePlaybackEvents]
  cases h : s.audioCtx <;> simp

/-- C7: the round trip `startMic(); stopMic(); startMic()` allocates a
fresh frequency buffer on each start — distinct allocation ids — each
of size `frequencyBinCount = fftSize / 2 = 128` for the configured
`fftSize` of 256, and `stopMic` drops the buffer in between. -/
theorem roundtrip_fresh_buffer (s : RevB.StateB) :
    (RevB.startMicOk s).analyser = some 256 ∧
    (RevB.startMicOk s).dataArray = some (s.allocCounter, 128) ∧
    (RevB.stopMic (RevB.startMicOk s)).dataArray = none ∧
    (RevB.startMicOk (RevB.stopMic (RevB.startMicOk s))).dataArray =
      some (s.allocCounter + 1, 128) ∧
    s.allocCounter < s.allocCounter + 1 ∧
    RevB.binCount 256 = 128 := by
  refine ⟨?_, ?_, ?_, ?_, Nat.lt_succ_self _, rfl⟩ <;>
    simp [RevB.startMicOk, RevB.stopMic_spec, RevB.stopFilePlayback_spec,
      RevB.draw, RevB.clearCanvas, RevB.binCount]

/-- Every atomic handler invocation preserves the mutual-exclusion /
single-loop invariant. -/
theorem RevB.invB_step (s : RevB.StateB) (op : RevB.OpB)
    (h : RevB.InvB s) : RevB.InvB (RevB.stepB s op) := by
  obtain ⟨h1, h2⟩ := h
  cases op <;>
    simp only [RevB.stepB, RevB.startMicOk, RevB.startMicFail,
      RevB.startFilePlaybackOk, RevB.startFilePlaybackFail, RevB.fileEnded,
      RevB.teardownAll, RevB.stopMic_spec, RevB.stopFilePlayback_spec,
      RevB.stopRenderLoop, RevB.teardownContext, RevB.draw, RevB.clearCanvas,
      RevB.InvB] <;>
    cases hr : s.rafId <;> split_ifs <;> simp_all

/-- The invariant holds along every run. -/
theorem RevB.invB_run (ops : List RevB.OpB) (s : RevB.StateB)
    (h : RevB.InvB s) : RevB.InvB (RevB.runB s ops) := by
  induction ops generalizing s with
  | nil => exact h
  | cons op ops ih => exact ih _ (RevB.invB_step s op h)

/-- C1: for every sequence of start/stop (and end-of-track / unmount)
invocations from the mounted state, at the resulting observation point
at most one source handle is wired into the pipeline (the mic and file
source refs are never both set) and at most one render-loop frame
callback is scheduled. -/
theorem at_most_one_source_and_one_loop (ops : List RevB.OpB) :
    ((RevB.runB RevB.initB ops).micSource = false ∨
      (RevB.runB RevB.initB ops).fileSource = false) ∧
    (RevB.runB RevB.initB ops).scheduledFrames ≤ 1 := by
  have h : RevB.InvB (RevB.runB RevB.initB ops) :=
    RevB.invB_run ops RevB.initB (by exact ⟨Or.inl rfl, rfl⟩)
  refine ⟨h.1, ?_⟩
  rw [h.2]
  split <;> omega

/-- The length of the painted bar list equals the bin count. -/
theorem barsFrom_length (W H nQ : ℚ) (d : List Nat) :
    ∀ (x : ℚ) (i : Nat), (barsFrom W H nQ x i d).length = d.length := by
  induction d with
  | nil => intro x i; rfl
  | cons v rest ih => intro x i; simp [barsFrom, ih]

/-- Closed form of the bar-drawing loop: the bar at position `j` sits
at `x + j * (barW + 1)`, has width `barW = (W / n) * 2.2`, height
`(v / 255) * (H * 0.9)` for the bin value `v`, and hue
`((i + j) / n) * 300`. -/
theorem barsFrom_get (W H nQ : ℚ) (d : List Nat) :
    ∀ (x : ℚ) (i j : Nat), j < d.length →
      (barsFrom W H nQ x i d).get? j =
        some { x := x + (j : ℚ) * (W / nQ * (11/5) + 1),
               y := H - ((d.getD j 0 : ℚ) / 255) * (H * (9/10)),
               w := W / nQ * (11/5),
               h := ((d.getD j 0 : ℚ) / 255) * (H * (9/10)),
               hue := (((i + j : Nat) : ℚ) / nQ) * 300 } := by
  induction d with
  | nil => intro x i j hj; simp at hj
  | cons v rest ih =>
    intro x i j hj
    cases j with
    | zero => simp [barsFrom]
    | succ j =>
      have hj' : j < rest.length := Nat.lt_of_succ_lt_succ (by simpa using hj)
      simp only [barsFrom, List.get?_cons_succ]
      rw [ih (x + W / nQ * (11/5) + 1) (i + 1) j hj']
      simp only [List.getD_cons_succ]
      have hn : i + 1 + j = i + (j + 1) := by omega
      rw [hn]
      simp only [Option.some.injEq, Bar.mk.injEq]
      refine ⟨by push_cast; ring, ?_⟩
      simp

/-- C9: when the canvas, analyser and data array are present, each
render step (1) reschedules itself first, (2) then samples the
frequency bins, (3) then paints the translucent `0.15`-alpha overlay
over the whole surface and then one vertical bar per bin — for bin
value `v` a bar of height `(v / 255) * (H * 0.9)` with hue
`(i / n) * 300` degrees, so bin 0 sits at hue 0 and the last of 128
bins at `(127/128) * 300 ≈ 297.7`, close to 300 of 360 degrees. -/
theorem draw_step_order_and_bars (W H : ℚ) (d : List Nat) :
    (drawStep W H true true (some d)).get? 0 = some DEvent.reschedule ∧
    (drawStep W H true true (some d)).get? 1 = some DEvent.sample ∧
    (drawStep W H true true (some d)).get? 2 =
      some (DEvent.overlay (3/20) W H) ∧
    (drawStep W H true true (some d)).length = 3 + d.length ∧
    (∀ j, j < d.length →
      (drawStep W H true true (some d)).get? (3 + j) =
        some (DEvent.bar
          { x := (j : ℚ) * (W / (d.length : ℚ) * (11/5) + 1),
            y := H - ((d.getD j 0 : ℚ) / 255) * (H * (9/10)),
            w := W / (d.length : ℚ) * (11/5),
            h := ((d.getD j 0 : ℚ) / 255) * (H * (9/10)),
            hue := ((j : ℚ) / (d.length : ℚ)) * 300 })) ∧
    (0 < d.length →
      ∃ b, (drawStep W H true true (some d)).get? 3 =
        some (DEvent.bar b) ∧ b.hue = 0) ∧
    (d.length = 128 →
      ∃ b, (drawStep W H true true (some d)).get? (3 + 127) =
        some (DEvent.bar b) ∧
        b.hue = (127 : ℚ) / 128 * 300 ∧ (290 : ℚ) ≤ b.hue ∧ b.hue ≤ 300) := by
  have hbar : ∀ j, j < d.length →
      (drawStep W H true true (some d)).get? (3 + j) =
        some (DEvent.bar
          { x := (j : ℚ) * (W / (d.length : ℚ) * (11/5) + 1),
            y := H - ((d.getD j 0 : ℚ) / 255) * (H * (9/10)),
            w := W / (d.length : ℚ) * (11/5),
            h := ((d.getD j 0 : ℚ) / 255) * (H * (9/10)),
            hue := ((j : ℚ) / (d.length : ℚ)) * 300 }) := by
    intro j hj
    have h3 : (drawStep W H true true (some d)).get? (3 + j) =
        ((barsFrom W H (d.length : ℚ) 0 0 d).map DEvent.bar).get? j := by
      simp [drawStep, Nat.add_comm 3 j]
    rw [h3, List.get?_map, barsFrom_get W H (d.length : ℚ) d 0 0 j hj]
    simp
  refine ⟨rfl, rfl, rfl, ?_, hbar, ?_, ?_⟩
  · simp [drawStep, barsFrom_length]
    omega
  · intro hpos
    refine ⟨_, hbar 0 hpos, ?_⟩
    simp
  · intro hlen
    refine ⟨_, hbar 127 (by omega), ?_⟩
    rw [hlen]
    norm_num

/-- Witness for `draw_step_order_and_bars` on a concrete 256×100
surface and a concrete 128-bin sample. -/
theorem draw_step_order_and_bars_witness :
    (drawStep 256 100 true true (some (List.replicate 128 0))).get? 0 =
      some DEvent.reschedule ∧
    (∃ b, (drawStep 256 100 true true (some (List.replicate 128 0))).get? 3 =
      some (DEvent.bar b) ∧ b.hue = 0) ∧
    (∃ b, (drawStep 256 100 true true
        (some (List.replicate 128 0))).get? (3 + 127) =
      some (DEvent.bar b) ∧
      b.hue = (127 : ℚ) / 128 * 300 ∧ (290 : ℚ) ≤ b.hue ∧ b.hue ≤ 300) :=
  ⟨(draw_step_order_and_bars 256 100 (List.replicate 128 0)).1,
   (draw_step_order_and_bars 256 100
      (List.replicate 128 0)).2.2.2.2.2.1 (by simp),
   (draw_step_order_and_bars 256 100
      (List.replicate 128 0)).2.2.2.2.2.2 (by simp)⟩
